import Mathlib

/-!
Shallow embedding of `src/main.cpp` of the modern-3d-template repository.

The GPU driver is modelled as an explicit state (`GLState`) holding a fresh-id
counter, the currently bound vertex array and a log of issued commands; every
OpenGL entry point the program uses becomes a pure state transformer.  C++
`float` arithmetic is idealised as exact rational arithmetic (`ℚ`), and the
`glm` matrix operations are embedded over an arbitrary commutative ring with
an explicit cosine/sine structure.  Unsigned 32-bit fields are `Nat` values
reduced modulo `2 ^ 32` wherever the source assigns a wider value into them.
-/

namespace Modern3D

/-- Local-space vertex (`main.cpp`, `struct Vertex3D`): three 32-bit floats,
modelled as rationals. -/
structure Vertex3D where
  x : ℚ
  y : ℚ
  z : ℚ
  deriving DecidableEq

/-- GPU mesh handle (`main.cpp`, `struct Mesh`): a vertex-array id and an
index count, both `uint32_t`. -/
structure Mesh where
  vao : Nat
  faces : Nat
  deriving DecidableEq

/-- Buffer binding targets used by the program. -/
inductive GLTarget where
  | arrayBuffer
  | elementArrayBuffer
  deriving DecidableEq

/-- Buffer usage hints used by the program. -/
inductive GLUsage where
  | staticDraw
  deriving DecidableEq

/-- Primitive modes used by the program. -/
inductive GLMode where
  | triangles
  deriving DecidableEq

/-- Index types used by the program. -/
inductive GLType where
  | unsignedInt
  deriving DecidableEq

/-- One logged OpenGL command, carrying the data the program hands to the
driver. -/
inductive GLCmd where
  | genVertexArray (id : Nat)
  | bindVertexArray (id : Nat)
  | genBuffer (id : Nat)
  | bindBuffer (target : GLTarget) (id : Nat)
  | bufferVertexData (target : GLTarget) (data : List Vertex3D) (usage : GLUsage)
  | bufferIndexData (target : GLTarget) (data : List Nat) (usage : GLUsage)
  | vertexAttribPointer (index size : Nat) (normalized : Bool) (stride : Nat)
  | enableVertexAttribArray (index : Nat)
  | drawElements (mode : GLMode) (count : Nat) (ty : GLType)
  deriving DecidableEq

/-- The ambient GPU driver state: a fresh-name counter for `glGen*`, the
currently bound vertex array (0 = none) and the log of issued commands. -/
structure GLState where
  nextId : Nat
  boundVAO : Nat
  cmds : List GLCmd
  deriving DecidableEq

/-- Driver state right after context creation: no commands issued, vertex
array 0 (none) bound, fresh ids starting at 1 (0 is never handed out). -/
def initialGLState : GLState := ⟨1, 0, []⟩

/-- `glGenVertexArrays(1, &out)`: hand out a fresh id. -/
def glGenVertexArray (s : GLState) : Nat × GLState :=
  (s.nextId, { s with nextId := s.nextId + 1, cmds := s.cmds ++ [GLCmd.genVertexArray s.nextId] })

/-- `glBindVertexArray(id)`. -/
def glBindVertexArray (id : Nat) (s : GLState) : GLState :=
  { s with boundVAO := id, cmds := s.cmds ++ [GLCmd.bindVertexArray id] }

/-- `glGenBuffers(1, &out)`: hand out a fresh id. -/
def glGenBuffer (s : GLState) : Nat × GLState :=
  (s.nextId, { s with nextId := s.nextId + 1, cmds := s.cmds ++ [GLCmd.genBuffer s.nextId] })

/-- `glBindBuffer(target, id)`. -/
def glBindBuffer (t : GLTarget) (id : Nat) (s : GLState) : GLState :=
  { s with cmds := s.cmds ++ [GLCmd.bindBuffer t id] }

/-- `glBufferData` on the vertex buffer: the vertex list is uploaded verbatim. -/
def glBufferDataVertices (t : GLTarget) (data : List Vertex3D) (u : GLUsage) (s : GLState) : GLState :=
  { s with cmds := s.cmds ++ [GLCmd.bufferVertexData t data u] }

/-- `glBufferData` on the element buffer: the index list is uploaded verbatim. -/
def glBufferDataIndices (t : GLTarget) (data : List Nat) (u : GLUsage) (s : GLState) : GLState :=
  { s with cmds := s.cmds ++ [GLCmd.bufferIndexData t data u] }

/-- `glVertexAttribPointer(index, size, GL_FLOAT, normalized, stride, 0)`. -/
def glVertexAttribPointer (index size : Nat) (normalized : Bool) (stride : Nat) (s : GLState) : GLState :=
  { s with cmds := s.cmds ++ [GLCmd.vertexAttribPointer index size normalized stride] }

/-- `glEnableVertexAttribArray(index)`. -/
def glEnableVertexAttribArray (index : Nat) (s : GLState) : GLState :=
  { s with cmds := s.cmds ++ [GLCmd.enableVertexAttribArray index] }

/-- `glDrawElements(mode, count, ty, nullptr)`. -/
def glDrawElements (mode : GLMode) (count : Nat) (ty : GLType) (s : GLState) : GLState :=
  { s with cmds := s.cmds ++ [GLCmd.drawElements mode count ty] }

/-- Number of values of `uint32_t`. -/
def UINT32_CARD : Nat := 2 ^ 32

/-- `constructMesh` (`main.cpp` lines 46-78), line by line.  `m.faces`
(`uint32_t`) is assigned from `faces.size()` (`size_t`), hence the reduction
modulo `2 ^ 32`. -/
def constructMesh (vertices : List Vertex3D) (faces : List Nat) (s : GLState) : Mesh × GLState :=
  let facesCount := faces.length % UINT32_CARD
  let (vao, s) := glGenVertexArray s
  let s := glBindVertexArray vao s
  let (vbo, s) := glGenBuffer s
  let s := glBindBuffer GLTarget.arrayBuffer vbo s
  let s := glBufferDataVertices GLTarget.arrayBuffer vertices GLUsage.staticDraw s
  let s := glVertexAttribPointer 0 3 false 12 s
  let s := glEnableVertexAttribArray 0 s
  let (ebo, s) := glGenBuffer s
  let s := glBindBuffer GLTarget.elementArrayBuffer ebo s
  let s := glBufferDataIndices GLTarget.elementArrayBuffer faces GLUsage.staticDraw s
  let s := glBindVertexArray 0 s
  ({ vao := vao, faces := facesCount }, s)

/-- `drawMesh` (`main.cpp` lines 120-127): bind the vertex array, issue the
indexed triangle draw of `m.faces` indices with 32-bit unsigned index type,
unbind. -/
def drawMesh (m : Mesh) (s : GLState) : GLState :=
  glBindVertexArray 0 (glDrawElements GLMode.triangles m.faces GLType.unsignedInt (glBindVertexArray m.vao s))

/-- An Assimp vertex position (`aiVector3D`), floats idealised as rationals. -/
structure AiVector3D where
  x : ℚ
  y : ℚ
  z : ℚ
  deriving DecidableEq

/-- A triangulated Assimp face: the three entries of `mIndices` the program
reads (the `aiProcessPreset_TargetRealtime_MaxQuality` preset triangulates). -/
structure AiFace where
  i0 : Nat
  i1 : Nat
  i2 : Nat
  deriving DecidableEq

/-- An Assimp mesh: vertex positions and triangular faces. -/
structure AiMesh where
  vertices : List AiVector3D
  faces : List AiFace
  deriving DecidableEq

/-- An Assimp scene: its list of meshes (`mMeshes` / `mNumMeshes`). -/
structure AiScene where
  meshes : List AiMesh
  deriving DecidableEq

/-- `fromAssimpMesh` (`main.cpp` lines 85-99): copy every vertex into a
`Vertex3D`, and push the three indices of every face in order. -/
def fromAssimpMesh (mesh : AiMesh) : List Vertex3D × List Nat :=
  (mesh.vertices.map (fun v => ⟨v.x, v.y, v.z⟩),
   mesh.faces.flatMap (fun f => [f.i0, f.i1, f.i2]))

/-- Outcome of `assimpLoad`: a fatal `exit(1)` with the printed diagnostic, an
unchecked access past the end of an empty `mMeshes` array (undefined
behaviour), or a constructed mesh together with the updated driver state. -/
inductive LoadResult where
  | fatalExit (code : Nat) (diag : String)
  | undefinedAccess
  | loaded (m : Mesh) (s : GLState)
  deriving DecidableEq

/-- `assimpLoad` (`main.cpp` lines 103-118).  The importer result is either a
scene or a failure diagnostic (`ReadFile` returning null plus
`GetErrorString`).  On failure the program prints `"ASSIMP ERROR" + msg` and
exits with status 1.  On success it reads `scene->mMeshes[0]` with no check
that the scene has any mesh: for a zero-mesh scene that access is undefined
behaviour, not an exit. -/
def assimpLoad (scene : Except String AiScene) (s : GLState) : LoadResult :=
  match scene with
  | Except.error msg => LoadResult.fatalExit 1 ("ASSIMP ERROR" ++ msg)
  | Except.ok sc =>
    match sc.meshes with
    | [] => LoadResult.undefinedAccess
    | m0 :: _ =>
      let (vertices, faces) := fromAssimpMesh m0
      let (m, s2) := constructMesh vertices faces s
      LoadResult.loaded m s2

/-- Modelled from the spec: the outcome of the GPU compile and link steps
performed by `ShaderProgram.load` (`ShaderProgram.h` is not part of the
repository sources).  For each step, `none` means success and `some log`
means failure with the GPU-reported diagnostic `log`. -/
structure GPU where
  compileVert : Option String
  compileFrag : Option String
  link : Option String
  deriving DecidableEq

/-- Modelled from the spec: the error taxonomy of `ShaderProgram.load` —
`ShaderCompileError` and `ShaderLinkError`, both carrying the GPU diagnostic
log text. -/
inductive ShaderError where
  | ShaderCompileError (log : String)
  | ShaderLinkError (log : String)
  deriving DecidableEq

/-- Modelled from the spec: `ShaderProgram.load` compiles the vertex stage,
then the fragment stage, then links; it fails with `ShaderCompileError` if
either stage fails to compile and with `ShaderLinkError` if linking fails. -/
def shaderLoad (g : GPU) : Except ShaderError Unit :=
  match g.compileVert with
  | some log => Except.error (ShaderError.ShaderCompileError log)
  | none =>
    match g.compileFrag with
    | some log => Except.error (ShaderError.ShaderCompileError log)
    | none =>
      match g.link with
      | some log => Except.error (ShaderError.ShaderLinkError log)
      | none => Except.ok ()

/-- Modelled from the spec: the diagnostic text carried by a shader error
(`std::runtime_error::what`). -/
def what : ShaderError → String
  | ShaderError.ShaderCompileError log => log
  | ShaderError.ShaderLinkError log => log

/-- Outcome of the shader-startup helper: fatal `exit(1)` with the printed
line, or a loaded and activated program. -/
inductive ShaderStartup where
  | fatalExit (code : Nat) (diag : String)
  | ok
  deriving DecidableEq

/-- `perspectiveUniformColorShader` (`main.cpp` lines 33-44): try to load and
activate the program; on any shader error print `"ERROR: " + e.what()` and
`exit(1)`. -/
def perspectiveUniformColorShader (g : GPU) : ShaderStartup :=
  match shaderLoad g with
  | Except.error e => ShaderStartup.fatalExit 1 ("ERROR: " ++ what e)
  | Except.ok _ => ShaderStartup.ok

/-- Window events the program inspects: it only tests for `sf::Event::Closed`. -/
inductive SFEvent where
  | closed
  | other
  deriving DecidableEq

/-- Observable actions of one iteration of the running loop. -/
inductive Step where
  | pollEvents
  | printFPS
  | computeViewProjection
  | setUniform (name : String)
  | animate
  | computeModel
  | clear
  | drawCall
  | display
  deriving DecidableEq

/-- The straight-line body of the running loop (`main.cpp` lines 200-231), in
source order: drain events, print the frame rate, compute the view and
projection matrices, upload the `view` and `projection` uniforms, advance the
animation state, rebuild the model matrix, upload the `model` uniform, clear,
draw, present. -/
def frameSteps : List Step :=
  [Step.pollEvents, Step.printFPS, Step.computeViewProjection,
   Step.setUniform "view", Step.setUniform "projection",
   Step.animate, Step.computeModel, Step.setUniform "model",
   Step.clear, Step.drawCall, Step.display]

/-- The per-frame mutable transform state of the loop. -/
structure LoopState where
  orientation : Fin 3 → ℚ
  position : Fin 3 → ℚ
  scale : Fin 3 → ℚ

/-- Initial transform state (`main.cpp` lines 192-194). -/
def initialLoopState : LoopState := ⟨![0, 0, 0], ![0, -0.1, -2], ![1, 1, 1]⟩

/-- The animation step (`main.cpp` lines 220-221):
`objectOrientation += (0, 0.0003, 0)` and `objectPosition += (0, 0, 0.00005)`. -/
def animateStep (st : LoopState) : LoopState :=
  { st with
      orientation := st.orientation + ![0, 0.0003, 0],
      position := st.position + ![0, 0, 0.00005] }

/-- The running loop, driven by the pending-event batches the window hands to
successive iterations.  An iteration that observes a close event still runs
its whole body (the source only clears `running`; the frame finishes and the
`while` condition is re-tested at the top), after which `main` returns 0.  If
the supplied batches run out before a close event, the loop is still running
(`none` exit code). -/
def runLoop (st : LoopState) : List (List SFEvent) → List Step × Option Nat
  | [] => ([], none)
  | evs :: rest =>
    if SFEvent.closed ∈ evs then (frameSteps, some 0)
    else
      let (tr, code) := runLoop (animateStep st) rest
      (frameSteps ++ tr, code)

/-- The step trace of `n` complete loop iterations. -/
def framesTrace : Nat → List Step
  | 0 => []
  | n + 1 => frameSteps ++ framesTrace n

/-- Outcome of a whole program run: fatal exit during initialization (with the
printed diagnostic), undefined behaviour during initialization, a clean exit
through a close event (exit code and full step trace), or a loop still
spinning when the supplied event batches ran out. -/
inductive RunResult where
  | fatalExit (code : Nat) (diag : String)
  | undefined
  | closed (code : Nat) (steps : List Step)
  | spinning (steps : List Step)

/-- `main` (`main.cpp` lines 167-235): load the asset and construct the mesh
(fatal exit 1 on importer failure), load the shader program (fatal exit 1 on
shader error), then run the loop; a close event makes `main` return 0. -/
def runProgram (scene : Except String AiScene) (g : GPU)
    (batches : List (List SFEvent)) (s : GLState) : RunResult :=
  match assimpLoad scene s with
  | LoadResult.fatalExit c d => RunResult.fatalExit c d
  | LoadResult.undefinedAccess => RunResult.undefined
  | LoadResult.loaded _ _ =>
    match perspectiveUniformColorShader g with
    | ShaderStartup.fatalExit c d => RunResult.fatalExit c d
    | ShaderStartup.ok =>
      match runLoop initialLoopState batches with
      | (tr, some c) => RunResult.closed c tr
      | (tr, none) => RunResult.spinning tr

/-- Homogeneous 4×4 matrices, the type of `glm::mat4` with entries idealised
in a commutative ring. -/
abbrev Mat4 (α : Type) := Matrix (Fin 4) (Fin 4) α

/-- The cosine and sine functions the rotation code consults, kept abstract so
the embedding stays executable; `ℝ` with the true trigonometric functions is
one instance. -/
structure Trig (α : Type) where
  cos : α → α
  sin : α → α

variable {α : Type} [CommRing α]

/-- The homogeneous translation matrix `T(v)` (what `glm::translate` composes
onto its argument). -/
def translateMat (v : Fin 3 → α) : Mat4 α :=
  !![1, 0, 0, v 0;
     0, 1, 0, v 1;
     0, 0, 1, v 2;
     0, 0, 0, 1]

/-- The homogeneous scaling matrix `S(v)` (what `glm::scale` composes onto its
argument). -/
def scaleMat (v : Fin 3 → α) : Mat4 α :=
  !![v 0, 0, 0, 0;
     0, v 1, 0, 0;
     0, 0, v 2, 0;
     0, 0, 0, 1]

/-- The homogeneous rotation matrix `glm::rotate` composes onto its argument:
the Rodrigues form `c·I + (1-c)·aaᵀ + s·[a]ₓ` from the glm source.  glm first
normalizes the axis; the program only ever passes the unit coordinate axes,
on which normalization is the identity, so the model takes the axis as
given. -/
def glmRotateMat (T : Trig α) (θ : α) (axis : Fin 3 → α) : Mat4 α :=
  let c := T.cos θ
  let s := T.sin θ
  let t := 1 - c
  let x := axis 0
  let y := axis 1
  let z := axis 2
  !![c + t*x*x, t*x*y - s*z, t*x*z + s*y, 0;
     t*x*y + s*z, c + t*y*y, t*y*z - s*x, 0;
     t*x*z - s*y, t*y*z + s*x, c + t*z*z, 0;
     0, 0, 0, 1]

/-- `glm::translate(m, v) = m * T(v)`. -/
def glmTranslate (m : Mat4 α) (v : Fin 3 → α) : Mat4 α := m * translateMat v

/-- `glm::scale(m, v) = m * S(v)`. -/
def glmScale (m : Mat4 α) (v : Fin 3 → α) : Mat4 α := m * scaleMat v

/-- `glm::rotate(m, θ, axis) = m * R(θ, axis)`. -/
def glmRotate (T : Trig α) (m : Mat4 α) (θ : α) (axis : Fin 3 → α) : Mat4 α :=
  m * glmRotateMat T θ axis

/-- `buildModelMatrix` (`main.cpp` lines 158-165), line by line: start from
`glm::mat4(1)`, translate by the position, scale, then rotate about z, x and
y by the respective Euler angles. -/
def buildModelMatrix (T : Trig α) (position orientation scale : Fin 3 → α) : Mat4 α :=
  let m := glmTranslate (1 : Mat4 α) position
  let m := glmScale m scale
  let m := glmRotate T m (orientation 2) ![0, 0, 1]
  let m := glmRotate T m (orientation 0) ![1, 0, 0]
  let m := glmRotate T m (orientation 1) ![0, 1, 0]
  m

/-- The canonical rotation about the x axis, as the spec words it. -/
def rotationX (T : Trig α) (θ : α) : Mat4 α :=
  !![1, 0, 0, 0;
     0, T.cos θ, -(T.sin θ), 0;
     0, T.sin θ, T.cos θ, 0;
     0, 0, 0, 1]

/-- The canonical rotation about the y axis, as the spec words it. -/
def rotationY (T : Trig α) (θ : α) : Mat4 α :=
  !![T.cos θ, 0, T.sin θ, 0;
     0, 1, 0, 0;
     -(T.sin θ), 0, T.cos θ, 0;
     0, 0, 0, 1]

/-- The canonical rotation about the z axis, as the spec words it. -/
def rotationZ (T : Trig α) (θ : α) : Mat4 α :=
  !![T.cos θ, -(T.sin θ), 0, 0;
     T.sin θ, T.cos θ, 0, 0;
     0, 0, 1, 0;
     0, 0, 0, 1]

lemma glmRotateMat_unitX (T : Trig α) (θ : α) :
    glmRotateMat T θ ![1, 0, 0] = rotationX T θ := by
  ext i j
  fin_cases i <;> fin_cases j <;>
    simp [glmRotateMat, rotationX, Matrix.vecHead, Matrix.vecTail]

lemma glmRotateMat_unitY (T : Trig α) (θ : α) :
    glmRotateMat T θ ![0, 1, 0] = rotationY T θ := by
  ext i j
  fin_cases i <;> fin_cases j <;>
    simp [glmRotateMat, rotationY, Matrix.vecHead, Matrix.vecTail]

lemma glmRotateMat_unitZ (T : Trig α) (θ : α) :
    glmRotateMat T θ ![0, 0, 1] = rotationZ T θ := by
  ext i j
  fin_cases i <;> fin_cases j <;>
    simp [glmRotateMat, rotationZ, Matrix.vecHead, Matrix.vecTail]

lemma scaleMat_one : scaleMat (![1, 1, 1] : Fin 3 → α) = 1 := by
  ext i j
  fin_cases i <;> fin_cases j <;>
    simp [scaleMat, Matrix.one_apply, Matrix.vecHead, Matrix.vecTail]

lemma rotationX_zero (T : Trig α) (hc : T.cos 0 = 1) (hs : T.sin 0 = 0) :
    rotationX T 0 = 1 := by
  ext i j
  fin_cases i <;> fin_cases j <;>
    simp [rotationX, hc, hs, Matrix.one_apply, Matrix.vecHead, Matrix.vecTail]

lemma rotationY_zero (T : Trig α) (hc : T.cos 0 = 1) (hs : T.sin 0 = 0) :
    rotationY T 0 = 1 := by
  ext i j
  fin_cases i <;> fin_cases j <;>
    simp [rotationY, hc, hs, Matrix.one_apply, Matrix.vecHead, Matrix.vecTail]

lemma rotationZ_zero (T : Trig α) (hc : T.cos 0 = 1) (hs : T.sin 0 = 0) :
    rotationZ T 0 = 1 := by
  ext i j
  fin_cases i <;> fin_cases j <;>
    simp [rotationZ, hc, hs, Matrix.one_apply, Matrix.vecHead, Matrix.vecTail]

lemma buildModelMatrix_eq_product (T : Trig α) (p o s : Fin 3 → α) :
    buildModelMatrix T p o s =
      translateMat p * scaleMat s * rotationZ T (o 2) * rotationX T (o 0) *
        rotationY T (o 1) := by
  simp only [buildModelMatrix, glmTranslate, glmScale, glmRotate,
    glmRotateMat_unitX, glmRotateMat_unitY, glmRotateMat_unitZ, Matrix.one_mul]

lemma constructMesh_fst (v : List Vertex3D) (f : List Nat) (s : GLState) :
    (constructMesh v f s).1 = ⟨s.nextId, f.length % UINT32_CARD⟩ := rfl

lemma constructMesh_snd (v : List Vertex3D) (f : List Nat) (s : GLState) :
    (constructMesh v f s).2 =
      ⟨s.nextId + 1 + 1 + 1, 0,
       s.cmds ++
         [GLCmd.genVertexArray s.nextId,
          GLCmd.bindVertexArray s.nextId,
          GLCmd.genBuffer (s.nextId + 1),
          GLCmd.bindBuffer GLTarget.arrayBuffer (s.nextId + 1),
          GLCmd.bufferVertexData GLTarget.arrayBuffer v GLUsage.staticDraw,
          GLCmd.vertexAttribPointer 0 3 false 12,
          GLCmd.enableVertexAttribArray 0,
          GLCmd.genBuffer (s.nextId + 1 + 1),
          GLCmd.bindBuffer GLTarget.elementArrayBuffer (s.nextId + 1 + 1),
          GLCmd.bufferIndexData GLTarget.elementArrayBuffer f GLUsage.staticDraw,
          GLCmd.bindVertexArray 0]⟩ := by
  simp [constructMesh, glGenVertexArray, glBindVertexArray, glGenBuffer, glBindBuffer,
    glBufferDataVertices, glBufferDataIndices, glVertexAttribPointer,
    glEnableVertexAttribArray]

lemma drawMesh_cmds (m : Mesh) (s : GLState) :
    (drawMesh m s).cmds =
      s.cmds ++ [GLCmd.bindVertexArray m.vao,
                 GLCmd.drawElements GLMode.triangles m.faces GLType.unsignedInt,
                 GLCmd.bindVertexArray 0] := by
  simp [drawMesh, glBindVertexArray, glDrawElements]

/-- Claim C8: every draw, whatever its mesh handle, leaves the pipeline with
no vertex array bound when it returns: it binds the handle's vertex array,
issues the draw, then rebinds vertex array 0. -/
theorem drawMesh_unbinds_vao (m : Mesh) (s : GLState) :
    (drawMesh m s).boundVAO = 0 ∧
    (drawMesh m s).cmds =
      s.cmds ++ [GLCmd.bindVertexArray m.vao,
                 GLCmd.drawElements GLMode.triangles m.faces GLType.unsignedInt,
                 GLCmd.bindVertexArray 0] :=
  ⟨rfl, drawMesh_cmds m s⟩

lemma faces_of_replicate (n : Nat) (s : GLState) :
    ((constructMesh [] (List.replicate n 0) s).1).faces = n % UINT32_CARD := by
  rw [constructMesh_fst, List.length_replicate]

/-- Claim C1 is false as stated at a face list of `2 ^ 32` indices: the stored
index count is a `uint32_t` assigned from `faces.size()`, so it wraps to 0
rather than equalling `faces.size()`. -/
theorem index_count_not_size_at_two_pow_32 :
    ((constructMesh [] (List.replicate (2 ^ 32) 0) initialGLState).1).faces ≠
      (List.replicate (2 ^ 32) (0 : Nat)).length := by
  rw [faces_of_replicate, List.length_replicate]
  norm_num [UINT32_CARD]

/-- Claim C1 (amended): for every vertex list and face-index list, the handle
stores an index count equal to `faces.size()` reduced modulo `2 ^ 32` — equal
to `faces.size()` itself whenever that is below `2 ^ 32` — and drawing the
handle issues one indexed triangle-list draw of exactly the stored count with
32-bit unsigned index type. -/
theorem constructMesh_index_count_mod (v : List Vertex3D) (f : List Nat) (s s2 : GLState) :
    ((constructMesh v f s).1).faces = f.length % 2 ^ 32 ∧
    (f.length < 2 ^ 32 → ((constructMesh v f s).1).faces = f.length) ∧
    (drawMesh (constructMesh v f s).1 s2).cmds =
      s2.cmds ++ [GLCmd.bindVertexArray ((constructMesh v f s).1).vao,
                  GLCmd.drawElements GLMode.triangles (f.length % 2 ^ 32) GLType.unsignedInt,
                  GLCmd.bindVertexArray 0] := by
  refine ⟨rfl, fun h => ?_, ?_⟩
  · rw [constructMesh_fst]
    simpa [UINT32_CARD] using Nat.mod_eq_of_lt h
  · rw [drawMesh_cmds, constructMesh_fst]
    simp [UINT32_CARD]

theorem constructMesh_index_count_mod_witness :
    (3 : Nat) < 2 ^ 32 ∧
    ((constructMesh [] [0, 1, 2] initialGLState).1).faces = 3 :=
  ⟨by norm_num,
   (constructMesh_index_count_mod [] [0, 1, 2] initialGLState initialGLState).2.1 (by norm_num)⟩

/-- Claim C9: constructing a mesh and then drawing it records the input vertex
and face sequences verbatim in the upload commands (same lists, same order);
both operations take the sequences as immutable values, so they are
unchanged. -/
theorem construct_draw_preserves_inputs (v : List Vertex3D) (f : List Nat) (s : GLState) :
    (drawMesh (constructMesh v f s).1 (constructMesh v f s).2).cmds =
      s.cmds ++
        [GLCmd.genVertexArray s.nextId,
         GLCmd.bindVertexArray s.nextId,
         GLCmd.genBuffer (s.nextId + 1),
         GLCmd.bindBuffer GLTarget.arrayBuffer (s.nextId + 1),
         GLCmd.bufferVertexData GLTarget.arrayBuffer v GLUsage.staticDraw,
         GLCmd.vertexAttribPointer 0 3 false 12,
         GLCmd.enableVertexAttribArray 0,
         GLCmd.genBuffer (s.nextId + 1 + 1),
         GLCmd.bindBuffer GLTarget.elementArrayBuffer (s.nextId + 1 + 1),
         GLCmd.bufferIndexData GLTarget.elementArrayBuffer f GLUsage.staticDraw,
         GLCmd.bindVertexArray 0,
         GLCmd.bindVertexArray s.nextId,
         GLCmd.drawElements GLMode.triangles (f.length % 2 ^ 32) GLType.unsignedInt,
         GLCmd.bindVertexArray 0] := by
  rw [drawMesh_cmds, constructMesh_snd, constructMesh_fst]
  simp [UINT32_CARD]

/-- Claim C10: the index count recorded in a mesh handle is a 32-bit unsigned
field assigned from `faces.size()`, so the stored count — and the count the
draw call passes — equals `faces.size()` modulo `2 ^ 32`, and for lists of
`2 ^ 32` or more indices it silently wraps below the true size. -/
theorem index_count_wraps_mod_2_32 (v : List Vertex3D) (f : List Nat) (s s2 : GLState) :
    ((constructMesh v f s).1).faces = f.length % 2 ^ 32 ∧
    (drawMesh (constructMesh v f s).1 s2).cmds =
      s2.cmds ++ [GLCmd.bindVertexArray ((constructMesh v f s).1).vao,
                  GLCmd.drawElements GLMode.triangles (f.length % 2 ^ 32) GLType.unsignedInt,
                  GLCmd.bindVertexArray 0] ∧
    (2 ^ 32 ≤ f.length → ((constructMesh v f s).1).faces < f.length) := by
  refine ⟨rfl, ?_, fun h => ?_⟩
  · rw [drawMesh_cmds, constructMesh_fst]
    simp [UINT32_CARD]
  · rw [constructMesh_fst]
    calc f.length % UINT32_CARD < 2 ^ 32 := Nat.mod_lt _ (by norm_num [UINT32_CARD])
      _ ≤ f.length := h

theorem index_count_wraps_mod_2_32_witness :
    2 ^ 32 ≤ (List.replicate (2 ^ 32) (0 : Nat)).length ∧
    ((constructMesh [] (List.replicate (2 ^ 32) 0) initialGLState).1).faces <
      (List.replicate (2 ^ 32) (0 : Nat)).length :=
  ⟨by rw [List.length_replicate],
   (index_count_wraps_mod_2_32 [] (List.replicate (2 ^ 32) 0) initialGLState
      initialGLState).2.2 (by rw [List.length_replicate])⟩

/-- Claim C2 is false as stated for a successfully parsed scene with zero
meshes: the program only checks for a null scene, so on an empty scene it
dereferences `scene->mMeshes[0]` unchecked (undefined behaviour) instead of
performing a fatal exit with status 1. -/
theorem zero_mesh_scene_no_fatal_exit :
    assimpLoad (Except.ok ⟨[]⟩) initialGLState = LoadResult.undefinedAccess ∧
    ¬ ∃ d, assimpLoad (Except.ok ⟨[]⟩) initialGLState = LoadResult.fatalExit 1 d := by
  refine ⟨rfl, ?_⟩
  rintro ⟨d, h⟩
  exact LoadResult.noConfusion h

/-- Claim C2 (amended): if the importer reports failure (a null scene), the
program prints `ASSIMP ERROR` plus the importer diagnostic and exits with
status 1, never constructing a mesh or entering the running loop; a
successfully parsed scene with zero meshes, however, is not guarded — there
the program reads the absent first mesh unchecked (undefined behaviour)
rather than exiting. -/
theorem assimp_failure_fatal_exit (msg : String) (g : GPU)
    (batches : List (List SFEvent)) (s : GLState) (sc : AiScene)
    (hsc : sc.meshes = []) :
    assimpLoad (Except.error msg) s = LoadResult.fatalExit 1 ("ASSIMP ERROR" ++ msg) ∧
    runProgram (Except.error msg) g batches s =
      RunResult.fatalExit 1 ("ASSIMP ERROR" ++ msg) ∧
    assimpLoad (Except.ok sc) s = LoadResult.undefinedAccess := by
  refine ⟨rfl, rfl, ?_⟩
  obtain ⟨m⟩ := sc
  simp only at hsc
  subst hsc
  rfl

theorem assimp_failure_fatal_exit_witness :
    (AiScene.mk []).meshes = [] ∧
    assimpLoad (Except.ok (AiScene.mk [])) initialGLState = LoadResult.undefinedAccess :=
  ⟨rfl,
   (assimp_failure_fatal_exit "file not found" ⟨none, none, none⟩ [] initialGLState
      ⟨[]⟩ rfl).2.2⟩

lemma shader_ok (g : GPU) (h1 : g.compileVert = none) (h2 : g.compileFrag = none)
    (h3 : g.link = none) : perspectiveUniformColorShader g = ShaderStartup.ok := by
  simp [perspectiveUniformColorShader, shaderLoad, h1, h2, h3]

lemma runProgram_loaded (sc : AiScene) (m0 : AiMesh) (ms : List AiMesh)
    (hsc : sc.meshes = m0 :: ms) (g : GPU) (batches : List (List SFEvent)) (s : GLState) :
    runProgram (Except.ok sc) g batches s =
      match perspectiveUniformColorShader g with
      | ShaderStartup.fatalExit c d => RunResult.fatalExit c d
      | ShaderStartup.ok =>
        match runLoop initialLoopState batches with
        | (tr, some c) => RunResult.closed c tr
        | (tr, none) => RunResult.spinning tr := by
  obtain ⟨m⟩ := sc
  simp only at hsc
  subst hsc
  rfl

/-- Claim C6: if either shader stage fails to compile with (non-empty) GPU
diagnostic `L`, loading yields `ShaderCompileError L`; the startup helper
catches it, prints `ERROR: ` followed by the non-empty diagnostic, and exits
with status 1, and a program run whose asset import succeeded ends right
there, never entering the running loop. -/
theorem shader_compile_failure_exits (g : GPU) (L : String) (sc : AiScene)
    (m0 : AiMesh) (ms : List AiMesh) (batches : List (List SFEvent)) (s : GLState)
    (hfail : g.compileVert = some L ∨ (g.compileVert = none ∧ g.compileFrag = some L))
    (hL : L ≠ "") (hsc : sc.meshes = m0 :: ms) :
    shaderLoad g = Except.error (ShaderError.ShaderCompileError L) ∧
    what (ShaderError.ShaderCompileError L) ≠ "" ∧
    perspectiveUniformColorShader g = ShaderStartup.fatalExit 1 ("ERROR: " ++ L) ∧
    runProgram (Except.ok sc) g batches s = RunResult.fatalExit 1 ("ERROR: " ++ L) := by
  have hload : shaderLoad g = Except.error (ShaderError.ShaderCompileError L) := by
    rcases hfail with h | ⟨h1, h2⟩
    · simp [shaderLoad, h]
    · simp [shaderLoad, h1, h2]
  have hshader : perspectiveUniformColorShader g =
      ShaderStartup.fatalExit 1 ("ERROR: " ++ L) := by
    simp [perspectiveUniformColorShader, hload, what]
  refine ⟨hload, by simpa [what] using hL, hshader, ?_⟩
  rw [runProgram_loaded sc m0 ms hsc, hshader]

theorem shader_compile_failure_exits_witness :
    ("0:1 syntax error" : String) ≠ "" ∧
    runProgram (Except.ok (AiScene.mk [AiMesh.mk [] []]))
        (GPU.mk (some "0:1 syntax error") none none) [] initialGLState =
      RunResult.fatalExit 1 ("ERROR: " ++ "0:1 syntax error") :=
  ⟨by decide,
   (shader_compile_failure_exits (GPU.mk (some "0:1 syntax error") none none)
      "0:1 syntax error" (AiScene.mk [AiMesh.mk [] []]) (AiMesh.mk [] []) [] []
      initialGLState (Or.inl rfl) (by decide) rfl).2.2.2⟩

/-- Claim C3 is false as stated: a uniform upload precedes the animation step
of the same frame — the `view` uniform upload sits at an earlier position of
the frame body than the animation step. -/
theorem uniform_upload_precedes_animate :
    Step.setUniform "view" ∈ frameSteps ∧ Step.animate ∈ frameSteps ∧
    frameSteps.indexOf (Step.setUniform "view") < frameSteps.indexOf Step.animate := by
  refine ⟨by decide, by decide, by decide⟩

/-- Claim C3 (amended): each loop iteration runs, in order, event draining,
the frame-rate print, view/projection matrix computation, the `view` and
`projection` uniform uploads, the animation step, the model matrix rebuild,
the `model` uniform upload, buffer clear, draw, present; the `model` uniform
upload follows the animation step of its frame, but the `view` and
`projection` uploads precede it. -/
theorem frame_step_order :
    frameSteps.indexOf Step.pollEvents < frameSteps.indexOf Step.printFPS ∧
    frameSteps.indexOf Step.printFPS < frameSteps.indexOf Step.computeViewProjection ∧
    frameSteps.indexOf Step.computeViewProjection <
      frameSteps.indexOf (Step.setUniform "view") ∧
    frameSteps.indexOf (Step.setUniform "view") <
      frameSteps.indexOf (Step.setUniform "projection") ∧
    frameSteps.indexOf (Step.setUniform "projection") < frameSteps.indexOf Step.animate ∧
    frameSteps.indexOf Step.animate < frameSteps.indexOf Step.computeModel ∧
    frameSteps.indexOf Step.computeModel < frameSteps.indexOf (Step.setUniform "model") ∧
    frameSteps.indexOf (Step.setUniform "model") < frameSteps.indexOf Step.clear ∧
    frameSteps.indexOf Step.clear < frameSteps.indexOf Step.drawCall ∧
    frameSteps.indexOf Step.drawCall < frameSteps.indexOf Step.display := by
  decide

lemma runLoop_close (pre : List (List SFEvent)) (b : List SFEvent)
    (post : List (List SFEvent)) (hpre : ∀ x ∈ pre, SFEvent.closed ∉ x)
    (hb : SFEvent.closed ∈ b) :
    ∀ st, runLoop st (pre ++ b :: post) = (framesTrace (pre.length + 1), some 0) := by
  induction pre with
  | nil =>
    intro st
    simp [runLoop, hb, framesTrace]
  | cons x xs ih =>
    intro st
    have hx : SFEvent.closed ∉ x := hpre x (List.mem_cons_self x xs)
    have ih2 := ih (fun y hy => hpre y (List.mem_cons_of_mem x hy))
    simp [runLoop, hx, ih2 (animateStep st), framesTrace]

/-- Claim C5: when a close event arrives in iteration K's event batch (no
earlier batch holding one), the loop still runs iteration K's full body — the
run's trace is exactly K complete frames, each placing the animation, the
`model` uniform upload, the draw and the present after the event drain — and
then leaves the running phase with exit status 0; with a successfully
initialized program, the whole run ends as a clean exit 0 with that trace. -/
theorem close_event_completes_iteration (st : LoopState) (pre : List (List SFEvent))
    (b : List SFEvent) (post : List (List SFEvent)) (sc : AiScene) (m0 : AiMesh)
    (ms : List AiMesh) (g : GPU) (s : GLState)
    (hpre : ∀ x ∈ pre, SFEvent.closed ∉ x) (hb : SFEvent.closed ∈ b)
    (hsc : sc.meshes = m0 :: ms) (hg1 : g.compileVert = none)
    (hg2 : g.compileFrag = none) (hg3 : g.link = none) :
    runLoop st (pre ++ b :: post) = (framesTrace (pre.length + 1), some 0) ∧
    runProgram (Except.ok sc) g (pre ++ b :: post) s =
      RunResult.closed 0 (framesTrace (pre.length + 1)) ∧
    frameSteps.indexOf Step.pollEvents < frameSteps.indexOf Step.animate ∧
    frameSteps.indexOf Step.animate < frameSteps.indexOf (Step.setUniform "model") ∧
    frameSteps.indexOf (Step.setUniform "model") < frameSteps.indexOf Step.drawCall ∧
    frameSteps.indexOf Step.drawCall < frameSteps.indexOf Step.display ∧
    frameSteps.getLast? = some Step.display := by
  have hloop := runLoop_close pre b post hpre hb
  refine ⟨hloop st, ?_, by decide, by decide, by decide, by decide, by decide⟩
  rw [runProgram_loaded sc m0 ms hsc, shader_ok g hg1 hg2 hg3, hloop initialLoopState]

theorem close_event_completes_iteration_witness :
    (SFEvent.closed ∈ [SFEvent.other, SFEvent.closed]) ∧
    runProgram (Except.ok (AiScene.mk [AiMesh.mk [] []])) (GPU.mk none none none)
        ([[SFEvent.other]] ++ [SFEvent.other, SFEvent.closed] :: [])
        initialGLState =
      RunResult.closed 0 (framesTrace 2) :=
  ⟨by decide,
   (close_event_completes_iteration initialLoopState [[SFEvent.other]]
      [SFEvent.other, SFEvent.closed] [] (AiScene.mk [AiMesh.mk [] []])
      (AiMesh.mk [] []) [] (GPU.mk none none none) initialGLState
      (by decide) (by decide) rfl rfl rfl rfl).2.1⟩

/-- Claim C7: for every initial transform state, `N` animation steps add
exactly `N` times the fixed per-frame deltas — `+0.0003` on the orientation y
component and `+0.00005` on the position z component — to the initial values:
linear accumulation with no drift correction (exact-arithmetic model of the
source's float updates). -/
theorem animation_linear_accumulation (st : LoopState) (N : Nat) :
    (animateStep^[N] st).orientation = st.orientation + ![0, (N : ℚ) * 0.0003, 0] ∧
    (animateStep^[N] st).position = st.position + ![0, 0, (N : ℚ) * 0.00005] := by
  induction N with
  | zero =>
    constructor <;> (funext i; fin_cases i <;> simp)
  | succ n ih =>
    obtain ⟨h1, h2⟩ := ih
    rw [Function.iterate_succ_apply']
    constructor
    · rw [show (animateStep (animateStep^[n] st)).orientation =
          (animateStep^[n] st).orientation + ![0, 0.0003, 0] from rfl, h1]
      funext i
      fin_cases i
      · simp [Matrix.vecHead, Matrix.vecTail]
      · simp [Matrix.vecHead, Matrix.vecTail]
        ring
      · simp [Matrix.vecHead, Matrix.vecTail]
    · rw [show (animateStep (animateStep^[n] st)).position =
          (animateStep^[n] st).position + ![0, 0, 0.00005] from rfl, h2]
      funext i
      fin_cases i
      · simp [Matrix.vecHead, Matrix.vecTail]
      · simp [Matrix.vecHead, Matrix.vecTail]
      · simp [Matrix.vecHead, Matrix.vecTail]
        ring

/-- Claim C4: the model matrix is exactly the product
`translate(position) * scale(scale) * rotateZ * rotateX * rotateY` (that
composition order), and with zero orientation and unit scale — for any cosine
and sine satisfying `cos 0 = 1` and `sin 0 = 0` — it reduces to the pure
translation by `position`. -/
theorem buildModelMatrix_composition {α : Type} [CommRing α] (T : Trig α)
    (p o s : Fin 3 → α) :
    buildModelMatrix T p o s =
      translateMat p * scaleMat s * rotationZ T (o 2) * rotationX T (o 0) *
        rotationY T (o 1) ∧
    (T.cos 0 = 1 → T.sin 0 = 0 →
      buildModelMatrix T p ![0, 0, 0] ![1, 1, 1] = translateMat p) := by
  refine ⟨buildModelMatrix_eq_product T p o s, fun hc hs => ?_⟩
  rw [buildModelMatrix_eq_product]
  have e0 : (![0, 0, 0] : Fin 3 → α) 0 = 0 := rfl
  have e1 : (![0, 0, 0] : Fin 3 → α) 1 = 0 := rfl
  have e2 : (![0, 0, 0] : Fin 3 → α) 2 = 0 := rfl
  rw [e0, e1, e2, scaleMat_one, rotationX_zero T hc hs, rotationY_zero T hc hs,
    rotationZ_zero T hc hs, mul_one, mul_one, mul_one, mul_one]

theorem buildModelMatrix_composition_witness :
    ((Trig.mk (fun _ => (1 : ℚ)) (fun _ => 0)).cos 0 = 1) ∧
    ((Trig.mk (fun _ => (1 : ℚ)) (fun _ => 0)).sin 0 = 0) ∧
    buildModelMatrix (Trig.mk (fun _ => (1 : ℚ)) (fun _ => 0)) ![1, 2, 3] ![0, 0, 0]
        ![1, 1, 1] =
      translateMat ![1, 2, 3] :=
  ⟨rfl, rfl,
   (buildModelMatrix_composition (Trig.mk (fun _ => (1 : ℚ)) (fun _ => 0)) ![1, 2, 3]
      ![0, 0, 0] ![1, 1, 1]).2 rfl rfl⟩

end Modern3D
